import Mathlib

/-!
Verification of the incident-alert pipeline (Python sources under
`backend/` plus the standalone `incident_watcher.py` and `scg_worker.py`).

The Python code is shallowly embedded: Python `float` weights become `ℚ`,
Python `int` becomes `ℤ`/`ℕ`, raised exceptions become `Except PyErr`,
random draws become explicit parameters (a supplied uniform number `r`, or
a supplied stream of exponential draws), and the SQLAlchemy-backed store
becomes an explicit list of records threaded through the operations.
-/

namespace IncidentAlert

/-- Python exceptions that the embedded code can raise. -/
inductive PyErr where
  /-- e.g. unpacking `keys, probs = zip(*items)` when `items` is empty. -/
  | valueError : PyErr
  /-- attribute access on an object that has no such attribute. -/
  | attributeError : String → PyErr
  /-- e.g. an invalid keyword argument passed to a model constructor. -/
  | typeError : String → PyErr
  /-- any other exception (network failure, LLM failure, ...). -/
  | other : String → PyErr
deriving Repr, DecidableEq

/-! ## Weighted sampling — `backend/worker.py`

Source (`backend/worker.py` lines 15–34):

```python
def _normalize_weights(w):
    keys = list(w.keys())
    vals = []
    for k in keys:
        try: v = float(w[k])
        except Exception: v = 0.0
        vals.append(max(0.0, v))
    s = sum(vals)
    if s <= 0:
        p = 1.0 / max(len(keys), 1)
        return [(k, p) for k in keys]
    return [(k, v / s) for k, v in zip(keys, vals)]

def sample_by_weights(w):
    items = _normalize_weights(w)
    keys, probs = zip(*items)
    return random.choices(list(keys), weights=list(probs), k=1)[0]
```

A Python dict iterates in insertion order, so we embed the weight mapping
as an association list `List (String × ℚ)` with distinct keys (distinctness
is never needed below).  All values are already numeric in the embedding,
so the `try: float(...)` coercion never takes its `except` branch. -/

/-- Embeds `_normalize_weights` from `backend/worker.py`. -/
def _normalize_weights (w : List (String × ℚ)) : List (String × ℚ) :=
  let keys := w.map Prod.fst
  let vals := w.map (fun kv => max 0 kv.2)
  let s := vals.sum
  if s ≤ 0 then
    let p : ℚ := 1 / ((max keys.length 1 : ℕ) : ℚ)
    keys.map (fun k => (k, p))
  else
    (keys.zip vals).map (fun kv => (kv.1, kv.2 / s))

/-- One step of `random.choices`' cumulative-weight scan: CPython computes
the running cumulative weights and returns `population[bisect_right(cum, x)]`
(index capped at `len-1`).  `bisect_right` on the nondecreasing cumulative
list is: the first index whose cumulative weight strictly exceeds `x`. -/
def choicesScan : List (String × ℚ) → ℚ → ℚ → Option String
  | [], _, _ => none
  | (k, v) :: rest, x, acc =>
    let acc2 := acc + v
    if x < acc2 then some k else choicesScan rest x acc2

/-- `random.choices(keys, weights=probs, k=1)[0]` on a non-empty population,
driven by the uniform draw `r = random()` (the total weight is 1 here, so
`random() * total = r`).  The cap at index `len-1` means that when `r` is at
or beyond the whole cumulative mass the last key is returned. -/
def choicesPick (items : List (String × ℚ)) (r : ℚ) : String :=
  match choicesScan items r 0 with
  | some k => k
  | none => ((items.map Prod.fst).getLast?).getD ""

/-- Embeds `sample_by_weights` from `backend/worker.py`.  The uniform draw
`random()` is supplied as the explicit parameter `r`.  On the empty mapping
`_normalize_weights` returns `[]` and the unpacking `keys, probs = zip(*items)`
raises `ValueError` before any draw happens. -/
def sample_by_weights (w : List (String × ℚ)) (r : ℚ) : Except PyErr String :=
  let items := _normalize_weights w
  match items with
  | [] => .error .valueError
  | _ :: _ => .ok (choicesPick items r)

/-! ## Weighted sampling — standalone `scg_worker.py`

Source (`scg_worker.py` lines 142–149):

```python
def weighted_choice(weights):
    r = random.random()
    acc = 0.0
    for k, v in weights.items():
        acc += v
        if r <= acc:
            return k
    return list(weights.keys())[-1]  # rounding 보정
```
-/

/-- The accumulation loop of `weighted_choice`: returns the first key whose
running total reaches the draw `r` (note `<=`, unlike `random.choices`). -/
def weighted_choice_scan : List (String × ℚ) → ℚ → ℚ → Option String
  | [], _, _ => none
  | (k, v) :: rest, r, acc =>
    let acc2 := acc + v
    if r ≤ acc2 then some k else weighted_choice_scan rest r acc2

/-- Embeds `weighted_choice` from `scg_worker.py`; the uniform draw
`random.random()` is supplied as `r`.  If the loop falls through, the code
returns `list(weights.keys())[-1]`, which raises `IndexError` only when the
mapping is empty. -/
def weighted_choice (weights : List (String × ℚ)) (r : ℚ) : Except PyErr String :=
  match weighted_choice_scan weights r 0 with
  | some k => .ok k
  | none =>
    match (weights.map Prod.fst).getLast? with
    | some k => .ok k
    | none => .error (.other "IndexError: list index out of range")

/-! ## Point-process scheduling — `backend/worker.py`

Source (`backend/worker.py` lines 85–96; `scg_worker.py` lines 225–236 are
identical):

```python
def schedule_intervals(n, minutes, ppm):
    if ppm and ppm > 0:
        lam = ppm / 60.0
        return [random.expovariate(lam) for _ in range(n)]
    mean = (minutes * 60) / max(n, 1)
    lam = 1.0 / max(mean, 0.001)
    return [random.expovariate(lam) for _ in range(n)]
```

`random.expovariate` is embedded as a supplied stream
`expovariate : ℕ → ℚ → ℚ`: `expovariate k lam` is the `k`-th independent
exponential draw of the run, at rate `lam`.  Each list position consumes a
fresh stream index, mirroring each comprehension element being its own
independent draw.  Python's `if ppm and ppm > 0` is: `ppm` is not `None`,
is truthy (non-zero), and is positive — equivalent to `ppm` present and
positive. -/

/-- Embeds `schedule_intervals` from `backend/worker.py`. -/
def schedule_intervals (expovariate : ℕ → ℚ → ℚ) (n : ℕ) (minutes : ℕ)
    (ppm : Option ℚ) : List ℚ :=
  match ppm with
  | some p =>
    if 0 < p then
      (List.range n).map (fun k => expovariate k (p / 60))
    else
      let mean : ℚ := (minutes * 60 : ℚ) / (max n 1 : ℚ)
      let lam : ℚ := 1 / max mean (1 / 1000)
      (List.range n).map (fun k => expovariate k lam)
  | none =>
    let mean : ℚ := (minutes * 60 : ℚ) / (max n 1 : ℚ)
    let lam : ℚ := 1 / max mean (1 / 1000)
    (List.range n).map (fun k => expovariate k lam)

/-! ## The post store — `backend/models.py` and `backend/crud.py`

`models.UserPost` (`backend/models.py` lines 6–21) is a row with columns
`id, text, created_at, processed (default False), is_simulated (default
False), persona, seed_post_id, lang, hashtags`.  The store is embedded as
the ordered list of its rows; `created_at` plays no role in any claim and
is omitted.  `id` is the integer primary key, assigned on insert. -/

/-- A row of the `user_posts` table (`backend/models.py`). -/
structure UserPost where
  id : ℕ
  text : String
  processed : Bool
  is_simulated : Bool
  persona : Option String
  seed_post_id : Option ℕ
  lang : Option String
  hashtags : Option String
deriving Repr, DecidableEq

/-- The `user_posts` table: its rows in insertion order. -/
abbrev Store := List UserPost

/-- `schemas.PostCreate` (`backend/schemas.py` lines 7–13). -/
structure PostCreate where
  text : String
  is_simulated : Bool := false
  persona : Option String := none
  seed_post_id : Option ℕ := none
  lang : Option String := none
  hashtags : Option String := none
deriving Repr, DecidableEq

/-- Primary-key assignment on insert: the next autoincrement id. -/
def nextId (db : Store) : ℕ := (db.map UserPost.id).foldr max 0 + 1

/-- `db.query(UserPost).filter(UserPost.id == pid).first()`: the first row
with the given id, if any. -/
def findPost (db : Store) (pid : ℕ) : Option UserPost :=
  db.find? (fun p => p.id = pid)

/-- Embeds `crud.create_post` (`backend/crud.py` lines 4–16): builds a
`UserPost` from the input schema — `processed` is not passed, so it takes
the column default `False` — adds and commits it, and returns the refreshed
row.  Result: the new store and the created row. -/
def create_post (db : Store) (post : PostCreate) : Store × UserPost :=
  let db_obj : UserPost :=
    { id := nextId db
      text := post.text
      processed := false
      is_simulated := post.is_simulated
      persona := post.persona
      seed_post_id := post.seed_post_id
      lang := post.lang
      hashtags := post.hashtags }
  (db ++ [db_obj], db_obj)

/-- The in-place update `post.processed = True` performed by
`crud.mark_post_processed` on the first row matching the id. -/
def setProcessedFirst : Store → ℕ → Store
  | [], _ => []
  | p :: rest, pid =>
    if p.id = pid then { p with processed := true } :: rest
    else p :: setProcessedFirst rest pid

/-- Embeds `crud.mark_post_processed` (`backend/crud.py` lines 32–39):
looks the post up by id; on `None` returns `None` without touching the
store; otherwise sets `processed = True` on that row, commits, and returns
the refreshed row. -/
def mark_post_processed (db : Store) (post_id : ℕ) : Store × Option UserPost :=
  match findPost db post_id with
  | none => (db, none)
  | some p => (setProcessedFirst db post_id, some { p with processed := true })

/-! ## Confirmed incidents — `backend/schemas.py` and `backend/crud.py` -/

/-- A Python value held by a pydantic model field here: an int, a string,
or `None`. -/
inductive PyVal where
  | int : ℤ → PyVal
  | str : String → PyVal
  | pynone : PyVal
deriving Repr, DecidableEq

/-- An optional string as a Python field value. -/
def PyVal.ofOptStr : Option String → PyVal
  | none => .pynone
  | some s => .str s

/-- `schemas.ConfirmedIncidentCreate` (`backend/schemas.py` lines 47–53):
its declared fields are exactly `post_id, incident_type, confidence,
country, city_or_area, summary`. -/
structure ConfirmedIncidentCreate where
  post_id : ℕ
  incident_type : Option String := none
  confidence : ℤ := 0
  country : Option String := none
  city_or_area : Option String := none
  summary : Option String := none
deriving Repr, DecidableEq

/-- Python attribute access on a `ConfirmedIncidentCreate` instance: the
declared pydantic fields resolve to their values; any other name raises
`AttributeError`. -/
def ConfirmedIncidentCreate.getattr (incident : ConfirmedIncidentCreate)
    (name : String) : Except PyErr PyVal :=
  if name = "post_id" then .ok (.int incident.post_id)
  else if name = "incident_type" then .ok (.ofOptStr incident.incident_type)
  else if name = "confidence" then .ok (.int incident.confidence)
  else if name = "country" then .ok (.ofOptStr incident.country)
  else if name = "city_or_area" then .ok (.ofOptStr incident.city_or_area)
  else if name = "summary" then .ok (.ofOptStr incident.summary)
  else .error (.attributeError name)

/-- A row of the `confirmed_incidents` table (`backend/models.py` lines
24–39): columns `id, post_id, incident_type, confidence, country,
city_or_area, summary, created_at` (`created_at` omitted as before). -/
structure ConfirmedIncident where
  id : ℕ
  post_id : ℕ
  incident_type : Option String
  confidence : ℤ
  country : Option String
  city_or_area : Option String
  summary : Option String
deriving Repr, DecidableEq

/-- Embeds `crud.create_confirmed_incident` (`backend/crud.py` lines 41–53):

```python
db_obj = models.ConfirmedIncident(
    source_post_id=incident.source_post_id,
    incident_type=incident.incident_type,
    summary=incident.summary,
    confidence=incident.confidence,
    location_country=incident.location_country,
    location_area=incident.location_area,
)
```

Python first evaluates the keyword arguments, i.e. the attribute reads on
`incident`, left to right.  `ConfirmedIncidentCreate` declares no field
`source_post_id` (its field is `post_id`), so the very first read raises
`AttributeError`.  `location_country` and `location_area` are likewise
undeclared (the fields are `country` and `city_or_area`).  Were all the
reads to succeed, the `models.ConfirmedIncident` declarative constructor
would still raise `TypeError`: the table has no `source_post_id`,
`location_country` or `location_area` column.  The function can therefore
never return a row. -/
def create_confirmed_incident (incident : ConfirmedIncidentCreate) :
    Except PyErr ConfirmedIncident :=
  (incident.getattr "source_post_id").bind fun _ =>
  (incident.getattr "incident_type").bind fun _ =>
  (incident.getattr "summary").bind fun _ =>
  (incident.getattr "confidence").bind fun _ =>
  (incident.getattr "location_country").bind fun _ =>
  (incident.getattr "location_area").bind fun _ =>
  .error (.typeError "source_post_id is an invalid keyword argument for ConfirmedIncident")

/-! ## Store operations exposed by the core (for the processed-flag invariant) -/

/-- The store mutations this core performs on `user_posts`:
`crud.create_post` and `crud.mark_post_processed`
(`crud.create_confirmed_incident` writes a different table and
`crud.get_*` are reads). -/
inductive StoreOp where
  | createPost : PostCreate → StoreOp
  | markProcessed : ℕ → StoreOp
deriving Repr

/-- Effect of one store operation on the `user_posts` table. -/
def applyOp (db : Store) : StoreOp → Store
  | .createPost pc => (create_post db pc).1
  | .markProcessed pid => (mark_post_processed db pid).1

/-- Effect of a sequence of store operations. -/
def applyOps (db : Store) (ops : List StoreOp) : Store :=
  ops.foldl applyOp db

/-! ## The classification poller — `incident_watcher.py`

`classify_post` is an LLM call and `report_confirmed_incident_to_server` /
`mark_post_processed` are HTTP POSTs whose `raise_for_status()` can raise;
each is embedded as a supplied outcome (`Except PyErr _`).  A failed call
means the corresponding server-side effect did not happen. -/

/-- The `is_incident` literal of `IncidentResult`
(`incident_watcher.py` lines 80–82): exactly `"Yes"` or `"No"`. -/
inductive YesNo where
  | yes
  | no
deriving Repr, DecidableEq

/-- `IncidentLocation` (`incident_watcher.py` lines 53–73). -/
structure IncidentLocation where
  country : Option String := none
  city_or_area : Option String := none
  latitude : Option ℚ := none
  longitude : Option ℚ := none
deriving Repr, DecidableEq

/-- `IncidentResult` (`incident_watcher.py` lines 76–99): the structured
LLM verdict. -/
structure IncidentResult where
  is_incident : YesNo
  confidence : ℤ
  incident_type : Option String := none
  location : Option IncidentLocation := none
  summary : Option String := none
deriving Repr, DecidableEq

/-- The JSON payload that `report_confirmed_incident_to_server`
(`incident_watcher.py` lines 284–309) POSTs to `/api/incidents`. -/
structure IncidentPayload where
  source_post_id : ℕ
  incident_type : Option String
  summary : Option String
  confidence : ℤ
  location_country : Option String
  location_area : Option String
deriving Repr, DecidableEq

/-- The payload construction of `report_confirmed_incident_to_server`:
`location_country`/`location_area` start as `None` and are filled from
`result_obj.location` when that is not `None` (a pydantic object is always
truthy). -/
def report_payload (post_id : ℕ) (result_obj : IncidentResult) : IncidentPayload :=
  let location_country :=
    match result_obj.location with
    | none => none
    | some loc => loc.country
  let location_area :=
    match result_obj.location with
    | none => none
    | some loc => loc.city_or_area
  { source_post_id := post_id
    incident_type := result_obj.incident_type
    summary := result_obj.summary
    confidence := result_obj.confidence
    location_country := location_country
    location_area := location_area }

/-- What one `handle_single_post` call did. -/
structure HandleResult where
  /-- the incident payload stored via `/api/incidents`, if the reporting
  call was made and succeeded. -/
  persisted : Option IncidentPayload
  /-- how many `mark_post_processed` calls completed for this post. -/
  markCalls : ℕ
  /-- the exception escaping `handle_single_post`, if any. -/
  err : Option PyErr
deriving Repr, DecidableEq

/-- Embeds `handle_single_post` (`incident_watcher.py` lines 199–249).
The control flow of the source, in order:

1. `result_obj = classify_post(text)` — if this raises, the exception
   escapes at once: nothing is persisted and `mark_post_processed` is
   never reached.
2. `if result_obj.is_incident == "Yes" and result_obj.confidence >= 80:`
   call `report_confirmed_incident_to_server`; if that raises, the
   exception escapes and `mark_post_processed` is never reached.
3. `backend_resp = mark_post_processed(post_id)` — runs last; if it
   raises, the post was not marked.

`classifyCall`, `persistCall` and `markCall` are the outcomes of the three
external calls. -/
def handle_single_post (post_id : ℕ) (classifyCall : Except PyErr IncidentResult)
    (persistCall : Except PyErr Unit) (markCall : Except PyErr Unit) : HandleResult :=
  match classifyCall with
  | .error e => { persisted := none, markCalls := 0, err := some e }
  | .ok result_obj =>
    let reported : Except PyErr (Option IncidentPayload) :=
      if result_obj.is_incident = .yes ∧ 80 ≤ result_obj.confidence then
        match persistCall with
        | .error e => .error e
        | .ok _ => .ok (some (report_payload post_id result_obj))
      else
        .ok none
    match reported with
    | .error e => { persisted := none, markCalls := 0, err := some e }
    | .ok saved =>
      match markCall with
      | .error e => { persisted := saved, markCalls := 0, err := some e }
      | .ok _ => { persisted := saved, markCalls := 1, err := none }

/-- Embeds the per-batch body of `poll_loop` (`incident_watcher.py` lines
274–279): each fetched post is handled inside `try/except`, so an error in
one post is printed and the loop continues with the next post.  The
external-call outcomes are supplied per post id. -/
def poll_batch (posts : List ℕ) (classifyCall : ℕ → Except PyErr IncidentResult)
    (persistCall : ℕ → Except PyErr Unit) (markCall : ℕ → Except PyErr Unit) :
    List (ℕ × HandleResult) :=
  posts.map (fun pid =>
    (pid, handle_single_post pid (classifyCall pid) (persistCall pid) (markCall pid)))

/-! ## The generation worker — `backend/worker.py` (`SCGWorker`)

In `_run_for_seed` each scheduled slot, after its `time.sleep`, samples a
language and a persona, calls `self._generate` (an LLM call that may
raise), and persists the text via `crud.create_post`.  The slot's external
outcome is embedded as one `Except PyErr SlotOutcome`: `ok` carries the
sampled language/persona and the generated text that the slot then
persists, `error` is the exception raised inside the slot (generation or
persistence — either way no row is committed for that slot).  The
`self._run.is_set()` stop flag is modelled as always set (the worker is
running), and the waits themselves only pace the loop. -/

/-- The draws and generated text of one successful scheduled slot. -/
structure SlotOutcome where
  lang : String
  persona : String
  text : String
deriving Repr, DecidableEq

/-- The emission loop of `SCGWorker._run_for_seed` (`backend/worker.py`
lines 193–218): for each wait in order, generate and persist one synthetic
post.  There is no `try/except` inside the loop, so the first slot that
raises makes the exception escape `_run_for_seed`: no row for that slot,
and the remaining slots never run.  Returns the final store, the rows
persisted by this job in order, and the escaping exception, if any. -/
def run_slots (tags : Option String) (seed_post_id : ℕ) :
    List (Except PyErr SlotOutcome) → Store → Store × List UserPost × Option PyErr
  | [], db => (db, [], none)
  | .error e :: _, db => (db, [], some e)
  | .ok s :: rest, db =>
    let step := create_post db
      { text := s.text
        is_simulated := true
        persona := some s.persona
        seed_post_id := some seed_post_id
        lang := some s.lang
        hashtags := tags }
    let tailRun := run_slots tags seed_post_id rest step.1
    (tailRun.1, step.2 :: tailRun.2.1, tailRun.2.2)

/-- Embeds `SCGWorker._run_for_seed` (`backend/worker.py` lines 180–218):
draw the schedule (the waits do not affect what is persisted), load the
seed post by id — `if not post: print("seed not found; skip"); return`
ends the job normally with nothing persisted — then run the emission
loop.  `tags` is the precomputed `" ".join(cfg.tags) if cfg.tags else
None`; `slots` the per-slot external outcomes. -/
def run_for_seed (db : Store) (seed_post_id : ℕ) (tags : Option String)
    (slots : List (Except PyErr SlotOutcome)) : Store × List UserPost × Option PyErr :=
  match findPost db seed_post_id with
  | none => (db, [], none)
  | some _ => run_slots tags seed_post_id slots db

/-- Embeds the queue-draining behaviour of `SCGWorker._loop`
(`backend/worker.py` lines 168–177): each dequeued seed id is run inside
`try/except Exception: print(f"worker error: ...")`, so an exception from
one job is logged and the loop continues with the next queued job.  Each
job is a seed id with its slot outcomes; returns the final store and the
per-job logged exception (if any). -/
def worker_drain (tags : Option String) :
    List (ℕ × List (Except PyErr SlotOutcome)) → Store → Store × List (Option PyErr)
  | [], db => (db, [])
  | (seed_id, slots) :: rest, db =>
    let jobRun := run_for_seed db seed_id tags slots
    let tailRun := worker_drain tags rest jobRun.1
    (tailRun.1, jobRun.2.2 :: tailRun.2)

/-! ## Statement-side helper notions -/

/-- The slot outcomes strictly before the first failing slot of a job. -/
def okLead : List (Except PyErr SlotOutcome) → List SlotOutcome
  | [] => []
  | .error _ :: _ => []
  | .ok s :: rest => s :: okLead rest

/-- The first exception among a job's slot outcomes, if any. -/
def firstSlotError : List (Except PyErr SlotOutcome) → Option PyErr
  | [] => none
  | .error e :: _ => some e
  | .ok _ :: rest => firstSlotError rest

/-- A classification stub used in concrete instances: always a clean `No`
verdict with confidence 10. -/
def constClassifyNo : ℕ → Except PyErr IncidentResult :=
  fun _ => .ok { is_incident := .no, confidence := 10 }

/-- A server-call stub used in concrete instances: always succeeds. -/
def constCallOk : ℕ → Except PyErr Unit :=
  fun _ => .ok ()

/-! ## Theorems -/

lemma getLast?_mem {α : Type} : ∀ (l : List α) (k : α), l.getLast? = some k → k ∈ l
  | [a], k, h => by
    simp only [List.getLast?_singleton, Option.some.injEq] at h
    simp [h]
  | a :: b :: t, k, h => by
    rw [List.getLast?_cons_cons] at h
    exact List.mem_cons_of_mem a (getLast?_mem (b :: t) k h)

lemma getLast?_of_ne_nil {α : Type} : ∀ (l : List α), l ≠ [] → ∃ k, l.getLast? = some k
  | [a], _ => ⟨a, by simp⟩
  | a :: b :: t, _ => by
    rw [List.getLast?_cons_cons]
    exact getLast?_of_ne_nil (b :: t) (by simp)

lemma weighted_choice_scan_mem :
    ∀ (w : List (String × ℚ)) (r acc : ℚ) (k : String),
      weighted_choice_scan w r acc = some k → k ∈ w.map Prod.fst := by
  intro w
  induction w with
  | nil => intro r acc k h; simp [weighted_choice_scan] at h
  | cons hd rest ih =>
    intro r acc k h
    obtain ⟨k0, v0⟩ := hd
    rw [weighted_choice_scan] at h
    by_cases hc : r ≤ acc + v0
    · simp only [if_pos hc, Option.some.injEq] at h
      simp [h]
    · simp only [if_neg hc] at h
      simpa using Or.inr (ih r (acc + v0) k h)

/-- C5: drawing from `sample_by_weights` on the empty weight mapping fails
(the unpacking `keys, probs = zip(*items)` raises `ValueError`) rather
than returning a label, whatever the uniform draw is. -/
theorem sample_by_weights_empty_fails :
    ∀ r : ℚ, sample_by_weights [] r = .error PyErr.valueError := by
  intro r; rfl

/-- C2: `create_confirmed_incident` never returns the created record the
spec promises — for every input (shown both at a concrete well-formed
input and in general) it raises `AttributeError` on `incident.source_post_id`,
because the `ConfirmedIncidentCreate` schema declares `post_id`, not
`source_post_id` (and the model row has no `source_post_id`,
`location_country` or `location_area` columns either). -/
theorem create_confirmed_incident_always_raises :
    create_confirmed_incident
        { post_id := 7, incident_type := some "arson", confidence := 91,
          country := some "KR", city_or_area := some "Seoul",
          summary := some "fire set at a market" }
      = .error (.attributeError "source_post_id") ∧
    ∀ incident : ConfirmedIncidentCreate,
      create_confirmed_incident incident = .error (.attributeError "source_post_id") := by
  refine ⟨rfl, fun incident => rfl⟩

/-- C10: on every non-empty weight mapping, `weighted_choice` from the
standalone `scg_worker.py` is total — whatever the uniform draw `r`, it
returns (never raises) a key of the mapping, the fall-through case being
covered by the `list(weights.keys())[-1]` fallback. -/
theorem weighted_choice_total_member (weights : List (String × ℚ)) (r : ℚ)
    (hne : weights ≠ []) :
    ∃ k, weighted_choice weights r = .ok k ∧ k ∈ weights.map Prod.fst := by
  unfold weighted_choice
  cases hscan : weighted_choice_scan weights r 0 with
  | some k => exact ⟨k, rfl, weighted_choice_scan_mem _ _ _ _ hscan⟩
  | none =>
    have hne' : weights.map Prod.fst ≠ [] := by simpa using hne
    obtain ⟨k, hk⟩ := getLast?_of_ne_nil _ hne'
    rw [hk]
    exact ⟨k, rfl, getLast?_mem _ _ hk⟩

/-- Witness for C10 at the one-entry mapping. -/
theorem weighted_choice_total_member_witness :
    ([(("a" : String), (1 : ℚ))] ≠ []) ∧
    ∃ k, weighted_choice [("a", 1)] 0 = .ok k ∧
      k ∈ ([(("a" : String), (1 : ℚ))]).map Prod.fst :=
  ⟨by simp, weighted_choice_total_member [("a", 1)] 0 (by simp)⟩

/-- C6: what `_normalize_weights` feeds the draw in `sample_by_weights`:
negative weights are clamped to zero first (`max 0`); if the clamped total
is zero or less (all weights zero or negative) every one of the `n` labels
gets probability `1/n`; otherwise each label gets its clamped weight over
the clamped total. -/
theorem normalize_weights_distribution (w : List (String × ℚ)) (hw : w ≠ []) :
    ((w.map (fun kv => max 0 kv.2)).sum ≤ 0 →
      _normalize_weights w = w.map (fun kv => (kv.1, (1 : ℚ) / w.length))) ∧
    (0 < (w.map (fun kv => max 0 kv.2)).sum →
      _normalize_weights w
        = w.map (fun kv =>
            (kv.1, max 0 kv.2 / (w.map (fun kv' => max 0 kv'.2)).sum))) := by
  have hlen : max (w.map Prod.fst).length 1 = w.length := by
    rw [List.length_map]
    exact max_eq_left (Nat.one_le_iff_ne_zero.mpr (fun h0 => hw (List.length_eq_zero.mp h0)))
  constructor
  · intro hs
    unfold _normalize_weights
    rw [if_pos hs, hlen]
    simp [List.map_map, Function.comp]
  · intro hs
    unfold _normalize_weights
    rw [if_neg (not_le.mpr hs)]
    rw [List.zip_map']
    simp [List.map_map, Function.comp]

/-- Witness for C6 at a mapping with one negative and one positive weight. -/
theorem normalize_weights_distribution_witness :
    ([(("a" : String), (-2 : ℚ)), ("b", 3)] ≠ []) ∧
    ((([(("a" : String), (-2 : ℚ)), ("b", 3)]).map (fun kv => max 0 kv.2)).sum ≤ 0 →
      _normalize_weights [("a", -2), ("b", 3)]
        = ([(("a" : String), (-2 : ℚ)), ("b", 3)]).map
            (fun kv => (kv.1, (1 : ℚ) / ([(("a" : String), (-2 : ℚ)), ("b", 3)]).length))) ∧
    (0 < (([(("a" : String), (-2 : ℚ)), ("b", 3)]).map (fun kv => max 0 kv.2)).sum →
      _normalize_weights [("a", -2), ("b", 3)]
        = ([(("a" : String), (-2 : ℚ)), ("b", 3)]).map
            (fun kv =>
              (kv.1, max 0 kv.2 /
                (([(("a" : String), (-2 : ℚ)), ("b", 3)]).map (fun kv' => max 0 kv'.2)).sum))) :=
  ⟨by simp, (normalize_weights_distribution [("a", -2), ("b", 3)] (by simp)).1,
    (normalize_weights_distribution [("a", -2), ("b", 3)] (by simp)).2⟩

/-- C7: `schedule_intervals` returns exactly `n` wait durations (`n = 0`
gives the empty sequence), each a fresh independent draw of the supplied
exponential stream — at rate `ppm/60` per second when a positive
posts-per-minute rate is supplied, and otherwise at rate `1/mean` with
`mean = (minutes·60)/n` floored at the epsilon `0.001` — and each wait is
non-negative whenever the draws are. -/
theorem schedule_intervals_spec (expv : ℕ → ℚ → ℚ)
    (hpos : ∀ k lam, 0 ≤ expv k lam) (n minutes : ℕ) (ppm : Option ℚ) :
    (schedule_intervals expv n minutes ppm).length = n ∧
    schedule_intervals expv 0 minutes ppm = [] ∧
    (∀ x ∈ schedule_intervals expv n minutes ppm, 0 ≤ x) ∧
    (∀ p, ppm = some p → 0 < p → ∀ k, k < n →
      (schedule_intervals expv n minutes ppm)[k]? = some (expv k (p / 60))) ∧
    ((ppm = none ∨ ∃ p, ppm = some p ∧ ¬ 0 < p) → ∀ k, k < n →
      (schedule_intervals expv n minutes ppm)[k]?
        = some (expv k (1 / max ((minutes * 60 : ℚ) / (max n 1 : ℚ)) (1 / 1000)))) := by
  have hform : ∀ lam, ((List.range n).map (fun k => expv k lam)).length = n ∧
      (∀ x ∈ (List.range n).map (fun k => expv k lam), 0 ≤ x) ∧
      (∀ k, k < n → ((List.range n).map (fun k => expv k lam))[k]? = some (expv k lam)) := by
    intro lam
    refine ⟨by simp, ?_, ?_⟩
    · intro x hx
      obtain ⟨k, _, hk⟩ := List.mem_map.mp hx
      exact hk ▸ hpos k lam
    · intro k hk
      simp [List.getElem?_map, List.getElem?_range hk]
  cases ppm with
  | none =>
    obtain ⟨h1, h2, h3⟩ := hform (1 / max ((minutes * 60 : ℚ) / (max n 1 : ℚ)) (1 / 1000))
    simp only [schedule_intervals]
    exact ⟨h1, by simp [schedule_intervals], h2, fun p hp => by simp at hp, fun _ => h3⟩
  | some p =>
    by_cases hp : 0 < p
    · simp only [schedule_intervals, if_pos hp]
      obtain ⟨h1, h2, h3⟩ := hform (p / 60)
      refine ⟨h1, by simp [schedule_intervals, if_pos hp], h2, ?_, ?_⟩
      · intro q hq _ k hk
        cases hq
        exact h3 k hk
      · intro hcase
        rcases hcase with hnone | ⟨q, hq, hqneg⟩
        · exact absurd hnone (by simp)
        · cases hq
          exact absurd hp hqneg
    · simp only [schedule_intervals, if_neg hp]
      obtain ⟨h1, h2, h3⟩ := hform (1 / max ((minutes * 60 : ℚ) / (max n 1 : ℚ)) (1 / 1000))
      refine ⟨h1, by simp [schedule_intervals, if_neg hp], h2, ?_, fun _ => h3⟩
      intro q hq hqpos k hk
      cases hq
      exact absurd hqpos hp

/-- Witness for C7: the constant stream `1` at `n = 2`, `minutes = 20`,
rate 120 posts per minute. -/
theorem schedule_intervals_spec_witness :
    (∀ (k : ℕ) (lam : ℚ), 0 ≤ (fun (_ : ℕ) (_ : ℚ) => (1 : ℚ)) k lam) ∧
    ((schedule_intervals (fun (_ : ℕ) (_ : ℚ) => (1 : ℚ)) 2 20 (some 120)).length = 2 ∧
     schedule_intervals (fun (_ : ℕ) (_ : ℚ) => (1 : ℚ)) 0 20 (some 120) = [] ∧
     (∀ x ∈ schedule_intervals (fun (_ : ℕ) (_ : ℚ) => (1 : ℚ)) 2 20 (some 120), 0 ≤ x) ∧
     (∀ p, some (120 : ℚ) = some p → 0 < p → ∀ k, k < 2 →
       (schedule_intervals (fun (_ : ℕ) (_ : ℚ) => (1 : ℚ)) 2 20 (some 120))[k]?
         = some ((fun (_ : ℕ) (_ : ℚ) => (1 : ℚ)) k (p / 60))) ∧
     ((some (120 : ℚ) = none ∨ ∃ p, some (120 : ℚ) = some p ∧ ¬ 0 < p) → ∀ k, k < 2 →
       (schedule_intervals (fun (_ : ℕ) (_ : ℚ) => (1 : ℚ)) 2 20 (some 120))[k]?
         = some ((fun (_ : ℕ) (_ : ℚ) => (1 : ℚ)) k
             (1 / max ((20 * 60 : ℚ) / (max 2 1 : ℚ)) (1 / 1000))))) :=
  ⟨fun _ _ => by norm_num,
    schedule_intervals_spec (fun (_ : ℕ) (_ : ℚ) => (1 : ℚ)) (fun _ _ => by norm_num) 2 20 (some 120)⟩

lemma setProcessedFirst_getElem? :
    ∀ (db : Store) (pid : ℕ) (i : ℕ) (p : UserPost),
      db[i]? = some p →
      (setProcessedFirst db pid)[i]? = some p ∨
      (setProcessedFirst db pid)[i]? = some { p with processed := true } := by
  intro db
  induction db with
  | nil => intro pid i p h; simp at h
  | cons q rest ih =>
    intro pid i p h
    by_cases hq : q.id = pid
    · cases i with
      | zero =>
        simp only [List.getElem?_cons_zero, Option.some.injEq] at h
        right
        simp [setProcessedFirst, hq, ← h]
      | succ j =>
        simp only [List.getElem?_cons_succ] at h
        left
        simp [setProcessedFirst, hq, h]
    · cases i with
      | zero =>
        simp only [List.getElem?_cons_zero, Option.some.injEq] at h
        left
        simp [setProcessedFirst, hq, ← h]
      | succ j =>
        simp only [List.getElem?_cons_succ] at h
        simpa [setProcessedFirst, hq] using ih pid j p h

lemma applyOp_getElem? (db : Store) (op : StoreOp) (i : ℕ) (p : UserPost)
    (h : db[i]? = some p) :
    ∃ p', (applyOp db op)[i]? = some p' ∧
      (p' = p ∨ p' = { p with processed := true }) := by
  cases op with
  | createPost pc =>
    have hi : i < db.length := by
      by_contra hge
      rw [List.getElem?_eq_none (Nat.le_of_not_lt hge)] at h
      exact Option.noConfusion h
    refine ⟨p, ?_, Or.inl rfl⟩
    simp only [applyOp, create_post]
    rw [List.getElem?_append, if_pos hi]
    exact h
  | markProcessed pid =>
    simp only [applyOp, mark_post_processed]
    cases hfind : findPost db pid with
    | none => exact ⟨p, h, Or.inl rfl⟩
    | some q =>
      rcases setProcessedFirst_getElem? db pid i p h with h' | h'
      · exact ⟨p, h', Or.inl rfl⟩
      · exact ⟨{ p with processed := true }, h', Or.inr rfl⟩

/-- C9: the processed flag only ever moves from `false` to `true`.
`create_post` always creates its row with `processed = false` (first
conjunct), and along any sequence of the store operations this core
performs (`create_post`, `mark_post_processed`), the row at any position
either stays exactly as it was or becomes that same row with
`processed := true` (second conjunct) — so a row's flag flips to `true` at
most once and no operation ever clears it back to `false`. -/
theorem processed_flag_monotone :
    (∀ (db : Store) (pc : PostCreate), (create_post db pc).2.processed = false) ∧
    (∀ (ops : List StoreOp) (db : Store) (i : ℕ) (p : UserPost),
      db[i]? = some p →
      ∃ p', (applyOps db ops)[i]? = some p' ∧
        (p' = p ∨ p' = { p with processed := true })) := by
  constructor
  · intro db pc; rfl
  · intro ops
    induction ops with
    | nil => intro db i p h; exact ⟨p, h, Or.inl rfl⟩
    | cons op rest ih =>
      intro db i p h
      obtain ⟨q, hq, hcase⟩ := applyOp_getElem? db op i p h
      obtain ⟨p', hp', hcase'⟩ := ih (applyOp db op) i q hq
      refine ⟨p', by simpa [applyOps] using hp', ?_⟩
      rcases hcase with rfl | rfl
      · exact hcase'
      · rcases hcase' with rfl | rfl
        · exact Or.inr rfl
        · exact Or.inr rfl

/-- Witness for C9: a store with one unprocessed row, marked and then
extended by a fresh post. -/
theorem processed_flag_monotone_witness :
    (([{ id := 1, text := "t", processed := false, is_simulated := false,
         persona := none, seed_post_id := none, lang := none,
         hashtags := none }] : Store)[0]?
      = some { id := 1, text := "t", processed := false, is_simulated := false,
               persona := none, seed_post_id := none, lang := none,
               hashtags := none }) ∧
    ∃ p', (applyOps
        [{ id := 1, text := "t", processed := false, is_simulated := false,
           persona := none, seed_post_id := none, lang := none, hashtags := none }]
        [StoreOp.markProcessed 1, StoreOp.createPost { text := "u" }])[0]?
        = some p' ∧
      (p' = { id := 1, text := "t", processed := false, is_simulated := false,
              persona := none, seed_post_id := none, lang := none,
              hashtags := none } ∨
       p' = { id := 1, text := "t", processed := true, is_simulated := false,
              persona := none, seed_post_id := none, lang := none,
              hashtags := none }) :=
  ⟨rfl, processed_flag_monotone.2
    [StoreOp.markProcessed 1, StoreOp.createPost { text := "u" }]
    [{ id := 1, text := "t", processed := false, is_simulated := false,
       persona := none, seed_post_id := none, lang := none, hashtags := none }] 0
    { id := 1, text := "t", processed := false, is_simulated := false,
      persona := none, seed_post_id := none, lang := none, hashtags := none } rfl⟩

/-- C1 counterexample: a post whose classification call raises is NOT
marked processed by `handle_single_post` — the exception escapes before
the `mark_post_processed(post_id)` line is reached, so the mark count for
this run is 0, not the 1 the claim requires. -/
theorem classification_error_skips_mark :
    handle_single_post 1 (Except.error PyErr.valueError) (Except.ok ()) (Except.ok ())
      = { persisted := none, markCalls := 0, err := some PyErr.valueError } := rfl

lemma handle_markCalls (pid : ℕ) (c : Except PyErr IncidentResult)
    (pc mc : Except PyErr Unit) :
    (handle_single_post pid c pc mc).markCalls ≤ 1 ∧
    ((handle_single_post pid c pc mc).markCalls = 1 ↔
      ∃ r, c = .ok r ∧
        (r.is_incident = YesNo.yes ∧ 80 ≤ r.confidence → pc = .ok ()) ∧
        mc = .ok ()) := by
  cases c with
  | error e => simp [handle_single_post]
  | ok r =>
    by_cases hcond : r.is_incident = YesNo.yes ∧ 80 ≤ r.confidence
    · cases pc with
      | error e =>
        refine ⟨by simp [handle_single_post, hcond], ?_⟩
        constructor
        · intro h0
          exact absurd h0 (by simp [handle_single_post, hcond])
        · rintro ⟨r', hr', himp, _⟩
          cases hr'
          exact Except.noConfusion (himp hcond)
      | ok u =>
        cases u
        cases mc with
        | error e =>
          refine ⟨by simp [handle_single_post, hcond], ?_⟩
          constructor
          · intro h0
            exact absurd h0 (by simp [handle_single_post, hcond])
          · rintro ⟨r', hr', _, hmc⟩
            exact Except.noConfusion hmc
        | ok v =>
          cases v
          refine ⟨by simp [handle_single_post, hcond], ?_⟩
          constructor
          · intro _
            exact ⟨r, rfl, fun _ => rfl, rfl⟩
          · intro _
            simp [handle_single_post, hcond]
    · cases mc with
      | error e =>
        refine ⟨by simp [handle_single_post, hcond], ?_⟩
        constructor
        · intro h0
          exact absurd h0 (by simp [handle_single_post, hcond])
        · rintro ⟨r', hr', _, hmc⟩
          exact Except.noConfusion hmc
      | ok v =>
        cases v
        refine ⟨by simp [handle_single_post, hcond], ?_⟩
        constructor
        · intro _
          exact ⟨r, rfl, fun hc => absurd hc hcond, rfl⟩
        · intro _
          simp [handle_single_post, hcond]

/-- C1 (amended): within one polling run, every fetched post is handled
(the per-post `try/except` in `poll_loop` lets the batch continue past a
failing post), and a post is marked processed at most once; it is marked
exactly once precisely when its classification call succeeds, the
incident-reporting call succeeds whenever the verdict qualifies
(`Yes` with confidence ≥ 80), and the mark call itself succeeds — so a
post whose classification (or qualifying persistence) raises is left
unmarked in that run, not marked as the original claim states. -/
theorem poller_marks_iff_pipeline_succeeds
    (posts : List ℕ) (classifyCall : ℕ → Except PyErr IncidentResult)
    (persistCall markCall : ℕ → Except PyErr Unit) :
    (poll_batch posts classifyCall persistCall markCall).length = posts.length ∧
    ∀ pid hr, (pid, hr) ∈ poll_batch posts classifyCall persistCall markCall →
      hr = handle_single_post pid (classifyCall pid) (persistCall pid) (markCall pid) ∧
      hr.markCalls ≤ 1 ∧
      (hr.markCalls = 1 ↔
        ∃ r, classifyCall pid = .ok r ∧
          (r.is_incident = YesNo.yes ∧ 80 ≤ r.confidence → persistCall pid = .ok ()) ∧
          markCall pid = .ok ()) := by
  refine ⟨by simp [poll_batch], ?_⟩
  intro pid hr hmem
  simp only [poll_batch, List.mem_map] at hmem
  obtain ⟨pid', _, heq⟩ := hmem
  injection heq with h1 h2
  subst h1
  subst h2
  exact ⟨rfl, (handle_markCalls _ _ _ _).1, (handle_markCalls _ _ _ _).2⟩

/-- Witness for the amended C1 at a one-post batch whose classification
returns a clean non-incident verdict and whose server calls succeed. -/
theorem poller_marks_iff_pipeline_succeeds_witness :
    (poll_batch [3] constClassifyNo constCallOk constCallOk).length
      = ([3] : List ℕ).length ∧
    ∀ pid hr, (pid, hr) ∈ poll_batch [3] constClassifyNo constCallOk constCallOk →
      hr = handle_single_post pid (constClassifyNo pid) (constCallOk pid)
          (constCallOk pid) ∧
      hr.markCalls ≤ 1 ∧
      (hr.markCalls = 1 ↔
        ∃ r, constClassifyNo pid = .ok r ∧
          (r.is_incident = YesNo.yes ∧ 80 ≤ r.confidence →
            constCallOk pid = .ok ()) ∧
          constCallOk pid = .ok ()) :=
  poller_marks_iff_pipeline_succeeds [3] constClassifyNo constCallOk constCallOk

/-- C3: with the store call succeeding when attempted, `handle_single_post`
persists an incident payload exactly when the verdict is `Yes` and the
confidence clears the hardcoded threshold 80 (so exactly at 80 it
persists, at 79 it does not, shown by the two closed boundary conjuncts),
and the persisted payload carries the classification result's own fields:
the source post id, type, summary, confidence, country and area. -/
theorem poller_persists_iff_threshold :
    (∀ (pid : ℕ) (r : IncidentResult) (markCall : Except PyErr Unit),
      (handle_single_post pid (.ok r) (.ok ()) markCall).persisted
        = if r.is_incident = YesNo.yes ∧ 80 ≤ r.confidence
          then some (report_payload pid r) else none) ∧
    (∀ (pid : ℕ) (r : IncidentResult),
      (report_payload pid r).source_post_id = pid ∧
      (report_payload pid r).confidence = r.confidence ∧
      (report_payload pid r).incident_type = r.incident_type ∧
      (report_payload pid r).summary = r.summary ∧
      (report_payload pid r).location_country = r.location.bind IncidentLocation.country ∧
      (report_payload pid r).location_area = r.location.bind IncidentLocation.city_or_area) ∧
    (handle_single_post 5 (.ok { is_incident := .yes, confidence := 80 })
        (.ok ()) (.ok ())).persisted
      = some (report_payload 5 { is_incident := .yes, confidence := 80 }) ∧
    (handle_single_post 5 (.ok { is_incident := .yes, confidence := 79 })
        (.ok ()) (.ok ())).persisted
      = none := by
  refine ⟨?_, ?_, by decide, by decide⟩
  · intro pid r markCall
    by_cases hcond : r.is_incident = YesNo.yes ∧ 80 ≤ r.confidence
    · cases markCall <;> simp [handle_single_post, hcond]
    · cases markCall <;> simp [handle_single_post, hcond]
  · intro pid r
    cases hl : r.location with
    | none =>
      exact ⟨rfl, rfl, rfl, rfl, by simp [report_payload, hl], by simp [report_payload, hl]⟩
    | some loc =>
      exact ⟨rfl, rfl, rfl, rfl, by simp [report_payload, hl], by simp [report_payload, hl]⟩

/-- C4 counterexample: a job over a present seed with two scheduled slots,
the first of which raises during generation — the exception escapes
`_run_for_seed`, the second slot is never executed (no row is persisted
at all, the store is unchanged), contradicting the claim that the
remaining scheduled items of the job still run. -/
theorem slot_failure_aborts_remaining_slots :
    run_for_seed
        [{ id := 1, text := "seed", processed := false, is_simulated := false,
           persona := none, seed_post_id := none, lang := none, hashtags := none }]
        1 none
        [Except.error PyErr.valueError,
         Except.ok { lang := "en", persona := "reporter", text := "t2" }]
      = ([{ id := 1, text := "seed", processed := false, is_simulated := false,
            persona := none, seed_post_id := none, lang := none, hashtags := none }],
         [], some PyErr.valueError) := rfl

lemma run_slots_spec (tags : Option String) (sid : ℕ) :
    ∀ (slots : List (Except PyErr SlotOutcome)) (db : Store),
      ((run_slots tags sid slots db).2.1.map UserPost.text
        = (okLead slots).map SlotOutcome.text) ∧
      (run_slots tags sid slots db).2.2 = firstSlotError slots := by
  intro slots
  induction slots with
  | nil => intro db; exact ⟨rfl, rfl⟩
  | cons s rest ih =>
    intro db
    cases s with
    | error e => exact ⟨rfl, rfl⟩
    | ok so =>
      obtain ⟨iht, ihe⟩ := ih ((create_post db
        { text := so.text, is_simulated := true, persona := some so.persona,
          seed_post_id := some sid, lang := some so.lang, hashtags := tags }).1)
      constructor
      · simp only [run_slots, okLead, List.map_cons]
        rw [iht]
        rfl
      · simpa only [run_slots, firstSlotError] using ihe

/-- C4 (amended): a failure generating or persisting one scheduled item
aborts the remaining scheduled items of that job — the job persists
exactly the items strictly before its first failing slot, and the first
slot exception escapes the job — but the escaping exception is caught and
logged by the worker loop, so other queued jobs are still executed: the
loop produces one log entry per queued job and hands each subsequent job
the store state regardless of whether the previous job failed. -/
theorem job_failure_contained_at_job_level :
    (∀ (tags : Option String) (jobs : List (ℕ × List (Except PyErr SlotOutcome)))
        (db : Store),
      (worker_drain tags jobs db).2.length = jobs.length) ∧
    (∀ (tags : Option String) (seed_id : ℕ) (slots : List (Except PyErr SlotOutcome))
        (rest : List (ℕ × List (Except PyErr SlotOutcome))) (db : Store),
      worker_drain tags ((seed_id, slots) :: rest) db
        = ((worker_drain tags rest (run_for_seed db seed_id tags slots).1).1,
           (run_for_seed db seed_id tags slots).2.2
             :: (worker_drain tags rest (run_for_seed db seed_id tags slots).1).2)) ∧
    (∀ (tags : Option String) (seed_id : ℕ) (slots : List (Except PyErr SlotOutcome))
        (db : Store),
      (findPost db seed_id).isSome = true →
      ((run_for_seed db seed_id tags slots).2.1.map UserPost.text
          = (okLead slots).map SlotOutcome.text ∧
        (run_for_seed db seed_id tags slots).2.2 = firstSlotError slots)) := by
  refine ⟨?_, fun _ _ _ _ _ => rfl, ?_⟩
  · intro tags jobs
    induction jobs with
    | nil => intro db; rfl
    | cons job rest ih =>
      intro db
      obtain ⟨sid, slots⟩ := job
      simp only [worker_drain, List.length_cons]
      rw [ih]
  · intro tags seed_id slots db hfind
    unfold run_for_seed
    cases hf : findPost db seed_id with
    | none => rw [hf] at hfind; exact Bool.noConfusion hfind
    | some q => exact run_slots_spec tags seed_id slots db

/-- Witness for the amended C4: a present seed and a job whose second slot
fails — the persisted texts are exactly the slots before the failure and
the job's escaping error is that slot's exception. -/
theorem job_failure_contained_at_job_level_witness :
    (findPost
        [{ id := 1, text := "seed", processed := false, is_simulated := false,
           persona := none, seed_post_id := none, lang := none, hashtags := none }]
        1).isSome = true ∧
    ((run_for_seed
        [{ id := 1, text := "seed", processed := false, is_simulated := false,
           persona := none, seed_post_id := none, lang := none, hashtags := none }]
        1 none
        [Except.ok { lang := "en", persona := "p", text := "t1" },
         Except.error PyErr.valueError,
         Except.ok { lang := "en", persona := "p", text := "t2" }]).2.1.map UserPost.text
      = (okLead
          [Except.ok { lang := "en", persona := "p", text := "t1" },
           Except.error PyErr.valueError,
           Except.ok { lang := "en", persona := "p", text := "t2" }]).map SlotOutcome.text ∧
    (run_for_seed
        [{ id := 1, text := "seed", processed := false, is_simulated := false,
           persona := none, seed_post_id := none, lang := none, hashtags := none }]
        1 none
        [Except.ok { lang := "en", persona := "p", text := "t1" },
         Except.error PyErr.valueError,
         Except.ok { lang := "en", persona := "p", text := "t2" }]).2.2
      = firstSlotError
          [Except.ok { lang := "en", persona := "p", text := "t1" },
           Except.error PyErr.valueError,
           Except.ok { lang := "en", persona := "p", text := "t2" }]) :=
  ⟨rfl, job_failure_contained_at_job_level.2.2 none 1
    [Except.ok { lang := "en", persona := "p", text := "t1" },
     Except.error PyErr.valueError,
     Except.ok { lang := "en", persona := "p", text := "t2" }]
    [{ id := 1, text := "seed", processed := false, is_simulated := false,
       persona := none, seed_post_id := none, lang := none, hashtags := none }] rfl⟩

/-- C8: a generation job whose seed id is absent from the store finishes
normally — `if not post: ... return` — leaving the store untouched,
persisting zero synthetic posts and raising nothing, whatever the
scheduled slots would have produced. -/
theorem missing_seed_skips_job (db : Store) (seed_id : ℕ) (tags : Option String)
    (slots : List (Except PyErr SlotOutcome)) (habs : findPost db seed_id = none) :
    run_for_seed db seed_id tags slots = (db, [], none) := by
  unfold run_for_seed
  rw [habs]

/-- Witness for C8 on the empty store. -/
theorem missing_seed_skips_job_witness :
    findPost [] 1 = none ∧
    run_for_seed [] 1 none [Except.ok { lang := "en", persona := "p", text := "t" }]
      = ([], [], none) :=
  ⟨rfl, missing_seed_skips_job [] 1 none
    [Except.ok { lang := "en", persona := "p", text := "t" }] rfl⟩

end IncidentAlert
